import Mathlib

/-!
Shallow embedding of the QualGent job-orchestrator core (Job model, QueueService,
SchedulerService) from the repository sources, together with theorems checking the
specification's claims about it.

Conventions of the embedding:
* JavaScript strings become Lean `String`; where the code manipulates a string
  character-by-character (the `group_id` template and `split('_')`) we work on the
  underlying `List Char`.
* The Redis store (`job:*` keys plus their JSON values) becomes a `List Job` in key-scan
  order; `storeJob`/`updateJob` become functional updates.
* Timestamps (`new Date().toISOString()`) become an abstract clock value `now : Nat`
  passed to each operation.
* `throw new Error(msg)` becomes `Except.error msg`.
* The enumerations validated by the Joi schema (`status`, `priority`, `target`) become
  closed inductive types, which is exactly the value set the schema admits.
-/

/-- JOB_STATUS enum from the Job model. -/
inductive JobStatus where
  | queued
  | scheduled
  | running
  | completed
  | failed
  | cancelled
  | retrying
deriving DecidableEq

/-- PRIORITY enum from the Job model. -/
inductive Priority where
  | low
  | medium
  | high
deriving DecidableEq

/-- TARGET enum from the Job model. -/
inductive Target where
  | emulator
  | device
  | browserstack
deriving DecidableEq

/-- The wire string of a target value, as validated by the Joi schema. -/
def Target.toStr : Target → String
  | Target.emulator => "emulator"
  | Target.device => "device"
  | Target.browserstack => "browserstack"

/-- A job record, mirroring the fields set by the `Job` constructor. -/
structure Job where
  job_id : String
  org_id : String
  app_version_id : String
  test_path : String
  priority : Priority
  target : Target
  status : JobStatus
  progress : Int
  result : Option String
  error : Option String
  retry_count : Nat
  max_retries : Nat
  timestamp : Nat
  started_at : Option Nat
  completed_at : Option Nat
  device_id : Option String
  agent_id : Option String
  group_id : Option String
deriving DecidableEq

/-- The `additionalData` argument of `Job.updateStatus`: the call sites of the
repository only ever pass (subsets of) the fields `result`, `error`, `device_id`,
`agent_id`.  A field left `none` is absent from the object literal; `some v` is a
present field assigned by `Object.assign`. -/
structure UpdateData where
  result : Option (Option String) := none
  error : Option (Option String) := none
  device_id : Option (Option String) := none
  agent_id : Option (Option String) := none
deriving DecidableEq

/-- `Job.updateStatus(status, additionalData)`: sets the status, stamps `started_at`
on first entry to running, stamps `completed_at` on entry to completed or failed,
then `Object.assign`s the additional fields. -/
def Job.updateStatus (j : Job) (s : JobStatus) (d : UpdateData) (now : Nat) : Job :=
  let j1 : Job := { j with status := s }
  let j2 : Job :=
    if s = JobStatus.running ∧ j1.started_at = none then { j1 with started_at := some now }
    else j1
  let j3 : Job :=
    if s = JobStatus.completed ∨ s = JobStatus.failed then { j2 with completed_at := some now }
    else j2
  { j3 with
      result := d.result.getD j3.result
      error := d.error.getD j3.error
      device_id := d.device_id.getD j3.device_id
      agent_id := d.agent_id.getD j3.agent_id }

/-- `Job.canRetry()`. -/
def canRetry (j : Job) : Bool :=
  decide (j.retry_count < j.max_retries ∧
    (j.status = JobStatus.failed ∨ j.status = JobStatus.retrying))

/-- `Job.incrementRetry()`. -/
def incrementRetry (j : Job) (now : Nat) : Job :=
  let j1 : Job := { j with retry_count := j.retry_count + 1 }
  if j1.retry_count > j1.max_retries then
    j1.updateStatus JobStatus.failed
      { error := some (some ("Max retries (" ++ toString j1.max_retries ++ ") exceeded")) } now
  else
    j1.updateStatus JobStatus.retrying {} now

/-- `Job.getPriorityScore()`. -/
def getPriorityScore (j : Job) : Nat :=
  match j.priority with
  | Priority.low => 1
  | Priority.medium => 2
  | Priority.high => 3

/-- `Job.getGroupId()`: the template string interpolation
produces org_id, an underscore, app_version_id, an underscore, and the target. -/
def Job.getGroupId (j : Job) : List Char :=
  j.org_id.data ++ '_' :: (j.app_version_id.data ++ '_' :: (Target.toStr j.target).data)

/-- JavaScript `String.prototype.split` with a single-character separator, on the
underlying character list: every occurrence of the separator ends the current
(possibly empty) piece.  `jsSplit sep [] = [[]]` just as `"".split(s) = [""]`. -/
def jsSplit (sep : Char) : List Char → List (List Char)
  | [] => [[]]
  | c :: rest =>
    if c = sep then [] :: jsSplit sep rest
    else
      match jsSplit sep rest with
      | [] => [[c]]
      | h :: t => (c :: h) :: t

/-- The result object shape `{job_id, status, message}` returned by
`addJob`, `cancelJob` and `retryJob`. -/
structure OpResult where
  job_id : String
  status : JobStatus
  message : String
deriving DecidableEq

/-- The status filter check of `QueueService.getJobs`: `!status || jobData.status === status`. -/
def statusMatches (filter : Option JobStatus) (j : Job) : Bool :=
  match filter with
  | none => true
  | some s => decide (j.status = s)

/-- `QueueService.getJobs(orgId, status)`: scan, filter by org and optional status. -/
def getJobs (store : List Job) (orgId : String) (filter : Option JobStatus) : List Job :=
  store.filter (fun j => decide (j.org_id = orgId) && statusMatches filter j)

/-- The submission payload as produced by the CLI / HTTP route after Joi validation:
the identity and intent fields.  (The schema also passes optional execution-state
fields through verbatim; a plain submission carries none of them, so the `Job`
constructor defaults apply.) -/
structure SubmitPayload where
  org_id : String
  app_version_id : String
  test_path : String
  priority : Priority
  target : Target
deriving DecidableEq

/-- The match predicate of `QueueService.findDuplicateJob`: same
(org_id, app_version_id, test_path, target) and an active status. -/
def isDuplicateOf (d : SubmitPayload) (j : Job) : Bool :=
  decide (j.org_id = d.org_id ∧ j.app_version_id = d.app_version_id ∧
    j.test_path = d.test_path ∧ j.target = d.target ∧
    (j.status = JobStatus.queued ∨ j.status = JobStatus.scheduled ∨
      j.status = JobStatus.running))

/-- `QueueService.findDuplicateJob`: first matching job in key-scan order. -/
def findDuplicateJob (store : List Job) (d : SubmitPayload) : Option Job :=
  store.find? (isDuplicateOf d)

/-- The record built by `Job.create` for a fresh submission: generated id, submission
time, schema defaults for every execution-state field. -/
def mkNewJob (d : SubmitPayload) (newId : String) (now : Nat) : Job :=
  { job_id := newId
    org_id := d.org_id
    app_version_id := d.app_version_id
    test_path := d.test_path
    priority := d.priority
    target := d.target
    status := JobStatus.queued
    progress := 0
    result := none
    error := none
    retry_count := 0
    max_retries := 3
    timestamp := now
    started_at := none
    completed_at := none
    device_id := none
    agent_id := none
    group_id := none }

/-- `QueueService.addJob`: dedup check first; on a hit return the existing job's id and
status without writing; otherwise create and store a fresh record. -/
def addJob (store : List Job) (d : SubmitPayload) (newId : String) (now : Nat) :
    List Job × OpResult :=
  match findDuplicateJob store d with
  | some dup =>
    (store,
      { job_id := dup.job_id
        status := dup.status
        message := "Job already exists with same parameters" })
  | none =>
    let j := mkNewJob d newId now
    (store ++ [j],
      { job_id := j.job_id, status := j.status, message := "Job queued successfully" })

/-- `QueueService.cancelJob`: reject missing jobs and completed/failed jobs; otherwise
set status cancelled (via `updateStatus` with no additional data) and persist.
Returns the persisted record together with the response object. -/
def cancelJob (stored : Option Job) (now : Nat) : Except String (Job × OpResult) :=
  match stored with
  | none => Except.error "Job not found"
  | some j =>
    if j.status = JobStatus.completed ∨ j.status = JobStatus.failed then
      Except.error "Cannot cancel completed or failed job"
    else
      let j2 := j.updateStatus JobStatus.cancelled {} now
      Except.ok (j2,
        { job_id := j.job_id
          status := JobStatus.cancelled
          message := "Job cancelled successfully" })

/-- `QueueService.retryJob`: reject missing or non-retriable jobs; otherwise
`incrementRetry` and persist.  The Bull-queue re-add does not touch the job store. -/
def retryJob (stored : Option Job) (now : Nat) : Except String (Job × OpResult) :=
  match stored with
  | none => Except.error "Job not found"
  | some j =>
    if canRetry j then
      let j2 := incrementRetry j now
      Except.ok (j2,
        { job_id := j.job_id, status := j2.status, message := "Job queued for retry" })
    else
      Except.error "Job cannot be retried"

/-- The per-record action of `QueueService.performStartupRecovery`: jobs stuck in
running or scheduled are reset to queued with the restart error and cleared
assignment; every other record is left untouched. -/
def recoverJob (j : Job) (now : Nat) : Job :=
  if j.status = JobStatus.running ∨ j.status = JobStatus.scheduled then
    j.updateStatus JobStatus.queued
      { error := some (some "Job reset due to server restart")
        agent_id := some none
        device_id := some none } now
  else j

/-- `QueueService.performStartupRecovery`: scan every stored record and apply
`recoverJob`, writing back the reset records. -/
def performStartupRecovery (store : List Job) (now : Nat) : List Job :=
  store.map (fun j => recoverJob j now)

/-- The unsorted body of `SchedulerService.getJobsInGroup`: destructure the first
three `split('_')` pieces of the group id as `[orgId, appVersionId, target]`, fetch
the org's jobs, and keep those matching the app version, the target and status
queued.  When the split yields fewer than three pieces the destructured `target` is
`undefined` so no job's target compares equal and the result is empty. -/
def queuedMembers (store : List Job) (groupId : List Char) : List Job :=
  match jsSplit '_' groupId with
  | orgId :: appVersionId :: target :: _ =>
    (getJobs store (String.mk orgId) none).filter
      (fun j => decide (j.app_version_id.data = appVersionId ∧
        (Target.toStr j.target).data = target ∧ j.status = JobStatus.queued))
  | _ => []

/-- The comparator of the scheduler's `jobs.sort((a, b) => scores[b] - scores[a])`:
`a` stays before `b` exactly when `b`'s priority score does not exceed `a`'s.
JavaScript's `Array.prototype.sort` is stable, and a stable sort under a total
preorder has a unique result, so insertion sort with this relation computes it. -/
def priorityDesc (a b : Job) : Prop := getPriorityScore b ≤ getPriorityScore a

instance : DecidableRel priorityDesc := fun _ _ => Nat.decLe _ _

/-- `SchedulerService.getJobsInGroup`: the queued group members sorted by priority
descending (stable, hence preserving scan order between equal priorities). -/
def getJobsInGroup (store : List Job) (groupId : List Char) : List Job :=
  List.insertionSort priorityDesc (queuedMembers store groupId)

/-- `SchedulerService.getScheduledJobsInGroup`: same as `getJobsInGroup` but
selecting status scheduled. -/
def getScheduledJobsInGroup (store : List Job) (groupId : List Char) : List Job :=
  List.insertionSort priorityDesc
    (match jsSplit '_' groupId with
      | orgId :: appVersionId :: target :: _ =>
        (getJobs store (String.mk orgId) none).filter
          (fun j => decide (j.app_version_id.data = appVersionId ∧
            (Target.toStr j.target).data = target ∧ j.status = JobStatus.scheduled))
      | _ => [])

/-- `SchedulerService.simulateTestExecution` acting on the stored record it observes:
skip when the record is gone or already completed/failed; otherwise (after the
simulated run, whose outcome is `success`) re-check that the record is not
completed/failed and write the terminal update.  In this single-record model both
reads observe `stored`. -/
def simulateTestExecution (stored : Option Job) (success : Bool)
    (agentId deviceId : String) (now : Nat) : Option Job :=
  match stored with
  | none => none
  | some j =>
    if j.status = JobStatus.completed ∨ j.status = JobStatus.failed then some j
    else
      if j.status ≠ JobStatus.completed ∧ j.status ≠ JobStatus.failed then
        if success then
          some (j.updateStatus JobStatus.completed
            { result := some (some "Test passed successfully")
              device_id := some (some deviceId)
              agent_id := some (some agentId) } now)
        else
          some (j.updateStatus JobStatus.failed
            { error := some (some "Test failed during execution")
              device_id := some (some deviceId)
              agent_id := some (some agentId) } now)
      else some j

/-- `Math.round(((i + 1) / n) * 100)` of the progress write, as exact rational
rounding (round half away from zero on the nonnegative operands involved). -/
def roundPct (i n : Nat) : Int :=
  Int.ofNat (((i + 1) * 100 * 2 + n) / (2 * n))

/-- The body of the `executeTests` loop for job number `i` of `n`, acting on the
stored record with no interleaved writers: unconditionally mark the record running
(with the device and agent), run `simulateTestExecution`, then re-read and update
`progress` only if the record is still running. -/
def executeOneJob (stored : Option Job) (success : Bool) (agentId deviceId : String)
    (i n : Nat) (now : Nat) : Option Job :=
  let s1 : Option Job :=
    match stored with
    | some j =>
      some (j.updateStatus JobStatus.running
        { device_id := some (some deviceId), agent_id := some (some agentId) } now)
    | none => none
  match simulateTestExecution s1 success agentId deviceId now with
  | some j =>
    if j.status = JobStatus.running then some { j with progress := roundPct i n }
    else some j
  | none => none

/-- Whether `getJobGroups` keeps a job: `status !== COMPLETED && status !== FAILED`. -/
def isActive (j : Job) : Bool :=
  decide (j.status ≠ JobStatus.completed ∧ j.status ≠ JobStatus.failed)

/-- First-occurrence deduplication of a key list, mirroring the insertion order of
the JavaScript `Map` built by `getJobGroups` (a key is added the first time it is
seen and never moved). -/
def dedupFirstAux (seen : List (List Char)) : List (List Char) → List (List Char)
  | [] => []
  | k :: rest =>
    if k ∈ seen then dedupFirstAux seen rest
    else k :: dedupFirstAux (k :: seen) rest

/-- First-occurrence key order of the group `Map`. -/
def dedupFirst (l : List (List Char)) : List (List Char) :=
  dedupFirstAux [] l

/-- The buckets built by the `Map` loop of `QueueService.getJobGroups`: one bucket
per distinct group id of a non-completed, non-failed job, keys in first-occurrence
order, each bucket holding its jobs in scan order. -/
def getJobGroupsBuckets (store : List Job) : List (List Char × List Job) :=
  let act := store.filter isActive
  (dedupFirst (act.map Job.getGroupId)).map
    (fun k => (k, act.filter (fun j => decide (j.getGroupId = k))))

/-- `QueueService.getGroupStatus`. -/
def getGroupStatus (jobs : List Job) : String :=
  if jobs.any (fun j => decide (j.status = JobStatus.running)) then "running"
  else if jobs.any (fun j => decide (j.status = JobStatus.failed)) then "failed"
  else if jobs.all (fun j => decide (j.status = JobStatus.completed)) then "completed"
  else "queued"

/-- One emitted group summary of `getJobGroups` (the destructured id pieces, the
count, the aggregate status, and the timestamps at the ends of the
priority-sorted bucket). -/
structure GroupSummary where
  group_id : List Char
  org_id : List Char
  app_version_id : List Char
  target : List Char
  job_count : Nat
  status : String
  oldest_job : Option Nat
  newest_job : Option Nat
deriving DecidableEq

/-- The summary record `getJobGroups` builds from one bucket. -/
def mkGroupSummary (k : List Char) (jobs : List Job) : GroupSummary :=
  let parts := jsSplit '_' k
  let sorted := List.insertionSort priorityDesc jobs
  { group_id := k
    org_id := parts.getD 0 []
    app_version_id := parts.getD 1 []
    target := parts.getD 2 []
    job_count := sorted.length
    status := getGroupStatus sorted
    oldest_job := (sorted.head?).map Job.timestamp
    newest_job := (sorted.getLast?).map Job.timestamp }

/-- `QueueService.getJobGroups`. -/
def getJobGroups (store : List Job) : List GroupSummary :=
  (getJobGroupsBuckets store).map (fun b => mkGroupSummary b.1 b.2)

/-- The record returned by `QueueService.getQueueStats`. -/
structure QueueStats where
  waiting : Nat
  active : Nat
  completed : Nat
  failed : Nat
  total : Nat
  groups : Nat
deriving DecidableEq

/-- `QueueService.getQueueStats`: counts by status (cancelled and retrying jobs fall
through the switch and are only counted in `total`), plus the group count. -/
def getQueueStats (store : List Job) : QueueStats :=
  { waiting := (store.filter (fun j =>
      decide (j.status = JobStatus.queued ∨ j.status = JobStatus.scheduled))).length
    active := (store.filter (fun j => decide (j.status = JobStatus.running))).length
    completed := (store.filter (fun j => decide (j.status = JobStatus.completed))).length
    failed := (store.filter (fun j => decide (j.status = JobStatus.failed))).length
    total := store.length
    groups := (getJobGroups store).length }

/-! Concrete records used by witnesses and counterexamples. -/

/-- A fresh queued job exactly as a plain submission stores it. -/
def baseJob : Job :=
  { job_id := "job_1"
    org_id := "acme"
    app_version_id := "v1"
    test_path := "a.spec"
    priority := Priority.medium
    target := Target.emulator
    status := JobStatus.queued
    progress := 0
    result := none
    error := none
    retry_count := 0
    max_retries := 3
    timestamp := 1
    started_at := none
    completed_at := none
    device_id := none
    agent_id := none
    group_id := none }

/-- A job already cancelled in the store. -/
def cancelledJob : Job := { baseJob with status := JobStatus.cancelled }

/-- A job that failed during execution, with its execution state still attached. -/
def failedJob : Job :=
  { baseJob with
      job_id := "job_f"
      status := JobStatus.failed
      error := some "boom"
      started_at := some 3
      completed_at := some 4
      device_id := some "emulator-1"
      agent_id := some "agent-1" }

/-- A job caught mid-run by a restart. -/
def runningJob : Job :=
  { baseJob with
      job_id := "job_r"
      status := JobStatus.running
      started_at := some 5
      device_id := some "emulator-1"
      agent_id := some "agent-1" }

/-- Same group and priority as `jobTsEarly`, but submitted later and scanned first. -/
def jobTsLate : Job := { baseJob with job_id := "jA", timestamp := 2 }

/-- Same group and priority as `jobTsLate`, but submitted earlier and scanned last. -/
def jobTsEarly : Job := { baseJob with job_id := "jB", timestamp := 1 }

/-- A job whose org_id contains the group-id separator. -/
def underscoreJob : Job := { baseJob with org_id := "a_b" }

/-- The job written by a successful cancel, for reuse in closed statements. -/
def okJob (r : Except String (Job × OpResult)) : Option Job :=
  match r with
  | Except.ok (j, _) => some j
  | Except.error _ => none

/-! Projection lemmas for `Job.updateStatus`. -/

theorem updateStatus_status (j : Job) (s : JobStatus) (d : UpdateData) (now : Nat) :
    (j.updateStatus s d now).status = s := by
  simp only [Job.updateStatus]
  split <;> split <;> rfl

theorem updateStatus_progress (j : Job) (s : JobStatus) (d : UpdateData) (now : Nat) :
    (j.updateStatus s d now).progress = j.progress := by
  simp only [Job.updateStatus]
  split <;> split <;> rfl

theorem updateStatus_retry_count (j : Job) (s : JobStatus) (d : UpdateData) (now : Nat) :
    (j.updateStatus s d now).retry_count = j.retry_count := by
  simp only [Job.updateStatus]
  split <;> split <;> rfl

theorem updateStatus_completed_at_terminal (j : Job) (s : JobStatus) (d : UpdateData)
    (now : Nat) (h : s = JobStatus.completed ∨ s = JobStatus.failed) :
    (j.updateStatus s d now).completed_at = some now := by
  simp only [Job.updateStatus]
  rw [if_pos h]

theorem updateStatus_completed_at_other (j : Job) (s : JobStatus) (d : UpdateData)
    (now : Nat) (h1 : s ≠ JobStatus.completed) (h2 : s ≠ JobStatus.failed) :
    (j.updateStatus s d now).completed_at = j.completed_at := by
  simp only [Job.updateStatus]
  split
  · rename_i hterm
    exact absurd hterm (by rintro (h | h) <;> [exact h1 h; exact h2 h])
  · split <;> rfl

theorem updateStatus_started_at_other (j : Job) (s : JobStatus) (d : UpdateData)
    (now : Nat) (h : s ≠ JobStatus.running) :
    (j.updateStatus s d now).started_at = j.started_at := by
  simp only [Job.updateStatus]
  split <;> split <;> (try rfl) <;> (rename_i hrun; exact absurd hrun.1 h)

/-! Structural lemmas about the execution step. -/

/-- On a stored record already completed or failed, `simulateTestExecution` skips and
writes nothing. -/
theorem simulate_terminal (j : Job) (success : Bool) (agentId deviceId : String)
    (now : Nat) (h : j.status = JobStatus.completed ∨ j.status = JobStatus.failed) :
    simulateTestExecution (some j) success agentId deviceId now = some j := by
  simp only [simulateTestExecution]
  rw [if_pos h]

/-- On any other stored record, `simulateTestExecution` writes the terminal update
determined by the simulated outcome. -/
theorem simulate_nonterminal (j : Job) (success : Bool) (agentId deviceId : String)
    (now : Nat) (h1 : j.status ≠ JobStatus.completed) (h2 : j.status ≠ JobStatus.failed) :
    simulateTestExecution (some j) success agentId deviceId now =
      some (if success then
        j.updateStatus JobStatus.completed
          { result := some (some "Test passed successfully")
            device_id := some (some deviceId)
            agent_id := some (some agentId) } now
      else
        j.updateStatus JobStatus.failed
          { error := some (some "Test failed during execution")
            device_id := some (some deviceId)
            agent_id := some (some agentId) } now) := by
  simp only [simulateTestExecution]
  rw [if_neg (by rintro (h | h) <;> [exact h1 h; exact h2 h]), if_pos ⟨h1, h2⟩]
  cases success <;> rfl

/-- The `executeTests` loop body on any present record: forced to running, then
driven to the terminal status of the simulated outcome; the final progress write is
skipped because the record is no longer running. -/
theorem executeOneJob_eq (j : Job) (success : Bool) (agentId deviceId : String)
    (i n now : Nat) :
    executeOneJob (some j) success agentId deviceId i n now =
      some ((j.updateStatus JobStatus.running
          { device_id := some (some deviceId), agent_id := some (some agentId) } now).updateStatus
        (if success then JobStatus.completed else JobStatus.failed)
        (if success then
          { result := some (some "Test passed successfully")
            device_id := some (some deviceId)
            agent_id := some (some agentId) }
         else
          { error := some (some "Test failed during execution")
            device_id := some (some deviceId)
            agent_id := some (some agentId) }) now) := by
  have h1 : (j.updateStatus JobStatus.running
      { device_id := some (some deviceId), agent_id := some (some agentId) } now).status =
      JobStatus.running := updateStatus_status _ _ _ _
  simp only [executeOneJob]
  rw [simulate_nonterminal _ success agentId deviceId now (by rw [h1]; exact nofun)
    (by rw [h1]; exact nofun)]
  cases success <;> simp [updateStatus_status]

/-! Claim C1. -/

/-- C1 counterexample: the scheduler drives `baseJob` to status completed, yet the
terminal write leaves progress at 0, not 100, refuting
`progress = 100 ⇔ status = completed` for scheduler-completed jobs. -/
theorem C1_counterexample :
    (executeOneJob (some baseJob) true "agent-1" "emulator-1" 0 1 10).map Job.status =
      some JobStatus.completed ∧
    (executeOneJob (some baseJob) true "agent-1" "emulator-1" 0 1 10).map Job.progress =
      some 0 ∧
    ¬ ((executeOneJob (some baseJob) true "agent-1" "emulator-1" 0 1 10).map Job.progress =
      some 100) := by
  decide

/-- C1 (amended): the scheduler's execution of a stored job always ends in the
simulated terminal status, and the terminal write leaves `progress` exactly as it
was — in particular a completed job's progress need not be 100 — so progress within
0..100 stays within 0..100. -/
theorem C1_progress_decoupled (j : Job) (success : Bool) (agentId deviceId : String)
    (i n now : Nat) (hlo : 0 ≤ j.progress) (hhi : j.progress ≤ 100) :
    ∃ j2 : Job, executeOneJob (some j) success agentId deviceId i n now = some j2 ∧
      j2.status = (if success then JobStatus.completed else JobStatus.failed) ∧
      j2.progress = j.progress ∧ 0 ≤ j2.progress ∧ j2.progress ≤ 100 := by
  refine ⟨_, executeOneJob_eq j success agentId deviceId i n now, ?_, ?_, ?_, ?_⟩
  · exact updateStatus_status _ _ _ _
  · simp [updateStatus_progress]
  · simpa [updateStatus_progress] using hlo
  · simpa [updateStatus_progress] using hhi

/-- C1 witness: the amended statement instantiated on `baseJob`. -/
theorem C1_witness :
    ∃ j2 : Job, executeOneJob (some baseJob) true "agent-1" "emulator-1" 0 1 10 = some j2 ∧
      j2.status = (if true then JobStatus.completed else JobStatus.failed) ∧
      j2.progress = baseJob.progress ∧ 0 ≤ j2.progress ∧ j2.progress ≤ 100 :=
  C1_progress_decoupled baseJob true "agent-1" "emulator-1" 0 1 10 (by decide) (by decide)

/-! Claim C2. -/

/-- C2 counterexample: a job cancelled while the executor runs it is overwritten —
`simulateTestExecution` sees status cancelled, which its guard does not treat as
terminal, and writes completed over it. -/
theorem C2_counterexample :
    cancelledJob.status = JobStatus.cancelled ∧
    (simulateTestExecution (some cancelledJob) true "agent-1" "emulator-1" 7).map Job.status =
      some JobStatus.completed := by
  decide

/-- C2 (amended): the post-execution write honors only completed and failed — on
those it leaves the record untouched — while a job whose stored status is cancelled
is overwritten with the simulated outcome (completed or failed). -/
theorem C2_overwrite_cancelled (j : Job) (success : Bool) (agentId deviceId : String)
    (now : Nat) :
    ((j.status = JobStatus.completed ∨ j.status = JobStatus.failed) →
      simulateTestExecution (some j) success agentId deviceId now = some j) ∧
    (j.status = JobStatus.cancelled →
      (simulateTestExecution (some j) success agentId deviceId now).map Job.status =
        some (if success then JobStatus.completed else JobStatus.failed)) := by
  constructor
  · intro h
    exact simulate_terminal j success agentId deviceId now h
  · intro h
    rw [simulate_nonterminal j success agentId deviceId now (by rw [h]; exact nofun)
      (by rw [h]; exact nofun)]
    cases success <;> simp [updateStatus_status]

/-- C2 witness: the amended statement instantiated on an already-cancelled job. -/
theorem C2_witness :
    (simulateTestExecution (some cancelledJob) true "agent-1" "emulator-1" 7).map Job.status =
      some (if true then JobStatus.completed else JobStatus.failed) :=
  (C2_overwrite_cancelled cancelledJob true "agent-1" "emulator-1" 7).2 rfl

/-! Claim C3. -/

/-- A retriable job's `incrementRetry` bumps the count and lands on status retrying
(the forced-failed branch is unreachable because the count was below the bound). -/
theorem incrementRetry_of_canRetry (j : Job) (now : Nat) (h : canRetry j = true) :
    incrementRetry j now =
      { j with retry_count := j.retry_count + 1, status := JobStatus.retrying } := by
  simp only [canRetry] at h
  have hlt : j.retry_count < j.max_retries := (of_decide_eq_true h).1
  simp only [incrementRetry]
  rw [if_neg (by omega)]
  rfl

/-- C3 counterexample: retrying a failed job sets status retrying, not queued, and
clears none of error, started_at, completed_at, device_id, agent_id. -/
theorem C3_counterexample :
    (okJob (retryJob (some failedJob) 9)).map Job.status = some JobStatus.retrying ∧
    ¬ ((okJob (retryJob (some failedJob) 9)).map Job.status = some JobStatus.queued) ∧
    (okJob (retryJob (some failedJob) 9)).map Job.error = some (some "boom") ∧
    (okJob (retryJob (some failedJob) 9)).map Job.started_at = some (some 3) ∧
    (okJob (retryJob (some failedJob) 9)).map Job.completed_at = some (some 4) ∧
    (okJob (retryJob (some failedJob) 9)).map Job.device_id = some (some "emulator-1") ∧
    (okJob (retryJob (some failedJob) 9)).map Job.retry_count = some 1 := by
  decide

/-- C3 (amended): `retryJob` accepts exactly the jobs with status failed or retrying
and retry_count below max_retries; on acceptance it increments retry_count by one and
sets status retrying, leaving error, started_at, completed_at, device_id and agent_id
untouched in the persisted record; every other job is rejected. -/
theorem C3_retry_behavior (j : Job) (now : Nat) :
    (canRetry j = true →
      retryJob (some j) now =
        Except.ok ({ j with retry_count := j.retry_count + 1, status := JobStatus.retrying },
          { job_id := j.job_id
            status := JobStatus.retrying
            message := "Job queued for retry" })) ∧
    (canRetry j = false → retryJob (some j) now = Except.error "Job cannot be retried") ∧
    (canRetry j = true ↔ (j.retry_count < j.max_retries ∧
      (j.status = JobStatus.failed ∨ j.status = JobStatus.retrying))) := by
  refine ⟨?_, ?_, ?_⟩
  · intro h
    simp only [retryJob]
    rw [if_pos h, incrementRetry_of_canRetry j now h]
  · intro h
    simp only [retryJob]
    rw [if_neg (by simp [h])]
  · simp [canRetry]

/-- C3 witness: the amended statement applied to a concrete failed job. -/
theorem C3_witness :
    retryJob (some failedJob) 9 =
      Except.ok ({ failedJob with
          retry_count := failedJob.retry_count + 1
          status := JobStatus.retrying },
        { job_id := failedJob.job_id
          status := JobStatus.retrying
          message := "Job queued for retry" }) :=
  (C3_retry_behavior failedJob 9).1 (by decide)

/-! Claim C4. -/

/-- C4 counterexample: startup recovery resets a running job to queued but does not
clear `started_at`, which the claim says is cleared. -/
theorem C4_counterexample :
    (performStartupRecovery [runningJob] 100).map Job.status = [JobStatus.queued] ∧
    (performStartupRecovery [runningJob] 100).map Job.started_at = [some 5] ∧
    ¬ ((performStartupRecovery [runningJob] 100).map Job.started_at = [none]) := by
  decide

/-- C4 (amended): recovery rewrites every scheduled or running record to status
queued with agent_id and device_id null and the restart error message, leaving
retry_count — and also started_at — unchanged; records in any other status are left
untouched. -/
theorem C4_recovery_behavior (store : List Job) (now : Nat) :
    performStartupRecovery store now = store.map (fun j => recoverJob j now) ∧
    ∀ j : Job,
      ((j.status = JobStatus.scheduled ∨ j.status = JobStatus.running) →
        recoverJob j now =
          { j with status := JobStatus.queued
                   error := some "Job reset due to server restart"
                   agent_id := none
                   device_id := none }) ∧
      ((j.status ≠ JobStatus.scheduled ∧ j.status ≠ JobStatus.running) →
        recoverJob j now = j) := by
  refine ⟨rfl, fun j => ⟨?_, ?_⟩⟩
  · intro h
    simp only [recoverJob]
    rw [if_pos (Or.symm h)]
    rfl
  · intro h
    simp only [recoverJob]
    rw [if_neg (by rintro (hr | hs) <;> [exact h.2 hr; exact h.1 hs])]

/-- C4 witness: the amended statement applied to a store holding one running job. -/
theorem C4_witness :
    recoverJob runningJob 100 =
      { runningJob with
          status := JobStatus.queued
          error := some "Job reset due to server restart"
          agent_id := none
          device_id := none } :=
  ((C4_recovery_behavior [runningJob] 100).2 runningJob).1 (Or.inr rfl)

/-! Claim C5. -/

/-- A submission with the same identity tuple as `baseJob` (different priority, which
deduplication ignores). -/
def dupPayload : SubmitPayload :=
  { org_id := "acme"
    app_version_id := "v1"
    test_path := "a.spec"
    priority := Priority.high
    target := Target.emulator }

/-- C5 counterexample: the duplicate response carries the existing job's id and
status and writes nothing, but its message is the literal
"Job already exists with same parameters", not "duplicate". -/
theorem C5_counterexample :
    (addJob [baseJob] dupPayload "job_2" 9).1 = [baseJob] ∧
    (addJob [baseJob] dupPayload "job_2" 9).2.job_id = baseJob.job_id ∧
    (addJob [baseJob] dupPayload "job_2" 9).2.status = baseJob.status ∧
    (addJob [baseJob] dupPayload "job_2" 9).2.message =
      "Job already exists with same parameters" ∧
    ¬ ((addJob [baseJob] dupPayload "job_2" 9).2.message = "duplicate") := by
  decide

/-- C5 (amended): if a stored job matches the submission's
(org_id, app_version_id, test_path, target) with status queued, scheduled or
running, submit answers with that job's id and status and the message
"Job already exists with same parameters" (not the literal "duplicate") and the
store is unchanged; otherwise it appends a fresh record with status queued,
retry_count 0 and progress 0. -/
theorem C5_submit_behavior (store : List Job) (d : SubmitPayload) (newId : String)
    (now : Nat) :
    (∀ dup : Job, findDuplicateJob store d = some dup →
      dup ∈ store ∧ isDuplicateOf d dup = true ∧
      addJob store d newId now =
        (store,
          { job_id := dup.job_id
            status := dup.status
            message := "Job already exists with same parameters" })) ∧
    (findDuplicateJob store d = none →
      addJob store d newId now =
        (store ++ [mkNewJob d newId now],
          { job_id := newId
            status := JobStatus.queued
            message := "Job queued successfully" }) ∧
      (mkNewJob d newId now).status = JobStatus.queued ∧
      (mkNewJob d newId now).retry_count = 0 ∧
      (mkNewJob d newId now).progress = 0) ∧
    (∀ j : Job, isDuplicateOf d j = true ↔
      (j.org_id = d.org_id ∧ j.app_version_id = d.app_version_id ∧
        j.test_path = d.test_path ∧ j.target = d.target ∧
        (j.status = JobStatus.queued ∨ j.status = JobStatus.scheduled ∨
          j.status = JobStatus.running))) := by
  refine ⟨?_, ?_, ?_⟩
  · intro dup h
    simp only [findDuplicateJob] at h
    refine ⟨List.mem_of_find?_eq_some h, List.find?_some h, ?_⟩
    simp only [addJob, findDuplicateJob, h]
  · intro h
    refine ⟨?_, rfl, rfl, rfl⟩
    simp only [addJob, h]
    rfl
  · intro j
    simp [isDuplicateOf]

/-- C5 witness: the amended statement's duplicate branch on a one-job store. -/
theorem C5_witness :
    baseJob ∈ [baseJob] ∧ isDuplicateOf dupPayload baseJob = true ∧
    addJob [baseJob] dupPayload "job_2" 9 =
      ([baseJob],
        { job_id := baseJob.job_id
          status := baseJob.status
          message := "Job already exists with same parameters" }) :=
  (C5_submit_behavior [baseJob] dupPayload "job_2" 9).1 baseJob (by decide)

/-! Claim C6. -/

/-- Updating a job to the status it already holds is the identity on the record. -/
theorem set_status_self (j : Job) (s : JobStatus) (h : j.status = s) :
    { j with status := s } = j := by
  cases j
  cases h
  rfl

/-- C6 counterexample: cancelling `baseJob` and then cancelling again succeeds both
times — the second call is not rejected, because the guard only rejects completed
and failed. -/
theorem C6_counterexample :
    (okJob (cancelJob (some baseJob) 1)).map Job.status = some JobStatus.cancelled ∧
    (okJob (cancelJob (okJob (cancelJob (some baseJob) 1)) 2)).isSome = true ∧
    (okJob (cancelJob (okJob (cancelJob (some baseJob) 1)) 2)).map Job.status =
      some JobStatus.cancelled := by
  decide

/-- C6 (amended): cancel is rejected exactly on completed and failed jobs; a job
already cancelled is accepted again, the write leaving the record unchanged, so the
second of two cancels succeeds rather than returning an invalid-state error. -/
theorem C6_cancel_terminal (j : Job) (now : Nat) :
    ((j.status = JobStatus.completed ∨ j.status = JobStatus.failed) →
      cancelJob (some j) now = Except.error "Cannot cancel completed or failed job") ∧
    (j.status = JobStatus.cancelled →
      cancelJob (some j) now =
        Except.ok (j,
          { job_id := j.job_id
            status := JobStatus.cancelled
            message := "Job cancelled successfully" })) := by
  constructor
  · intro h
    simp only [cancelJob]
    rw [if_pos h]
  · intro h
    simp only [cancelJob]
    rw [if_neg (by rw [h]; rintro (hh | hh) <;> exact absurd hh (by decide))]
    have he : j.updateStatus JobStatus.cancelled {} now = { j with status := JobStatus.cancelled } :=
      rfl
    rw [he, set_status_self j JobStatus.cancelled h]

/-- C6 witness: the amended statement applied to an already-cancelled job. -/
theorem C6_witness :
    cancelJob (some cancelledJob) 2 =
      Except.ok (cancelledJob,
        { job_id := cancelledJob.job_id
          status := JobStatus.cancelled
          message := "Job cancelled successfully" }) :=
  (C6_cancel_terminal cancelledJob 2).2 rfl

/-! Claim C7. -/

/-- C7 counterexample: a successful cancel of a fresh job leaves `completed_at`
null — entry into the terminal status cancelled does not stamp it. -/
theorem C7_counterexample :
    (okJob (cancelJob (some baseJob) 5)).isSome = true ∧
    (okJob (cancelJob (some baseJob) 5)).map Job.status = some JobStatus.cancelled ∧
    (okJob (cancelJob (some baseJob) 5)).map Job.completed_at = some none := by
  decide

/-- C7 (amended): `completed_at` is stamped exactly on entry to completed or failed;
entry to cancelled leaves it as it was, so a successful cancel keeps the previous
(possibly null) `completed_at`. -/
theorem C7_completed_at_rule (j : Job) (s : JobStatus) (d : UpdateData) (now : Nat) :
    ((s = JobStatus.completed ∨ s = JobStatus.failed) →
      (j.updateStatus s d now).completed_at = some now) ∧
    ((s ≠ JobStatus.completed ∧ s ≠ JobStatus.failed) →
      (j.updateStatus s d now).completed_at = j.completed_at) ∧
    ((j.status ≠ JobStatus.completed ∧ j.status ≠ JobStatus.failed) →
      ∃ j2 r, cancelJob (some j) now = Except.ok (j2, r) ∧
        j2.completed_at = j.completed_at ∧ j2.status = JobStatus.cancelled) := by
  refine ⟨fun h => updateStatus_completed_at_terminal j s d now h,
    fun h => updateStatus_completed_at_other j s d now h.1 h.2, ?_⟩
  intro h
  refine ⟨j.updateStatus JobStatus.cancelled {} now,
    { job_id := j.job_id
      status := JobStatus.cancelled
      message := "Job cancelled successfully" }, ?_, ?_, ?_⟩
  · simp only [cancelJob]
    rw [if_neg (by rintro (hh | hh) <;> [exact h.1 hh; exact h.2 hh])]
  · exact updateStatus_completed_at_other j _ {} now (by exact nofun) (by exact nofun)
  · exact updateStatus_status _ _ _ _

/-- C7 witness: the amended statement's cancel branch on a fresh job. -/
theorem C7_witness :
    ∃ j2 r, cancelJob (some baseJob) 5 = Except.ok (j2, r) ∧
      j2.completed_at = baseJob.completed_at ∧ j2.status = JobStatus.cancelled :=
  (C7_completed_at_rule baseJob JobStatus.queued {} 5).2.2 (by decide)

/-! Claim C8. -/

/-- Membership in the first-occurrence deduplication with an accumulator. -/
theorem mem_dedupFirstAux (x : List Char) (l : List (List Char)) :
    ∀ seen, x ∈ dedupFirstAux seen l ↔ (x ∈ l ∧ x ∉ seen) := by
  induction l with
  | nil => intro seen; simp [dedupFirstAux]
  | cons k rest ih =>
    intro seen
    simp only [dedupFirstAux]
    split
    · rename_i hk
      rw [ih seen]
      constructor
      · rintro ⟨hr, hs⟩
        exact ⟨List.mem_cons_of_mem _ hr, hs⟩
      · rintro ⟨hm, hs⟩
        rcases List.mem_cons.mp hm with he | hr
        · exact absurd (he ▸ hk) hs
        · exact ⟨hr, hs⟩
    · rename_i hk
      constructor
      · intro hm
        rcases List.mem_cons.mp hm with he | hr
        · exact ⟨he ▸ List.mem_cons_self _ _, he ▸ hk⟩
        · have h2 := (ih (k :: seen)).mp hr
          exact ⟨List.mem_cons_of_mem _ h2.1,
            fun hs => h2.2 (List.mem_cons_of_mem _ hs)⟩
      · rintro ⟨hm, hs⟩
        rcases List.mem_cons.mp hm with he | hr
        · exact he ▸ List.mem_cons_self _ _
        · by_cases hxk : x = k
          · exact hxk ▸ List.mem_cons_self _ _
          · refine List.mem_cons_of_mem _ ((ih (k :: seen)).mpr ⟨hr, ?_⟩)
            intro hks
            rcases List.mem_cons.mp hks with h1 | h2
            · exact hxk h1
            · exact hs h2

/-- Membership survives first-occurrence deduplication. -/
theorem mem_dedupFirst (x : List Char) (l : List (List Char)) :
    x ∈ dedupFirst l ↔ x ∈ l := by
  simp [dedupFirst, mem_dedupFirstAux]

/-- C8 counterexample: a store holding one cancelled job yields one group with the
cancelled job as its member, and stats counts that group — the claim says cancelled
jobs belong to no group. -/
theorem C8_counterexample :
    cancelledJob.status = JobStatus.cancelled ∧
    getJobGroupsBuckets [cancelledJob] =
      [(Job.getGroupId cancelledJob, [cancelledJob])] ∧
    (getQueueStats [cancelledJob]).groups = 1 := by
  decide

/-- C8 (amended): the group view buckets exactly the jobs whose status is neither
completed nor failed — cancelled (and retrying) jobs are included — keyed by their
group id, and the stats group count is the number of those buckets. -/
theorem C8_group_membership (store : List Job) (j : Job) :
    ((∃ b ∈ getJobGroupsBuckets store, j ∈ b.2) ↔
      (j ∈ store ∧ j.status ≠ JobStatus.completed ∧ j.status ≠ JobStatus.failed)) ∧
    (∀ b ∈ getJobGroupsBuckets store, ∀ j2 ∈ b.2, Job.getGroupId j2 = b.1) ∧
    (getQueueStats store).groups = (getJobGroupsBuckets store).length := by
  refine ⟨?_, ?_, ?_⟩
  · simp only [getJobGroupsBuckets, List.mem_map]
    constructor
    · rintro ⟨b, ⟨k, hk, rfl⟩, hj⟩
      have hj2 := List.mem_filter.mp hj
      have hact := List.mem_filter.mp hj2.1
      exact ⟨hact.1, of_decide_eq_true hact.2⟩
    · rintro ⟨hs, h1, h2⟩
      have hact : j ∈ store.filter isActive :=
        List.mem_filter.mpr ⟨hs, by simp [isActive]; exact ⟨h1, h2⟩⟩
      refine ⟨(Job.getGroupId j, (store.filter isActive).filter
          (fun j2 => decide (Job.getGroupId j2 = Job.getGroupId j))), ⟨Job.getGroupId j, ?_, rfl⟩, ?_⟩
      · exact (mem_dedupFirst _ _).mpr (List.mem_map.mpr ⟨j, hact, rfl⟩)
      · exact List.mem_filter.mpr ⟨hact, by simp⟩
  · intro b hb j2 hj2
    simp only [getJobGroupsBuckets, List.mem_map] at hb
    obtain ⟨k, hk, rfl⟩ := hb
    exact of_decide_eq_true (List.mem_filter.mp hj2).2
  · simp [getQueueStats, getJobGroups]

/-! Claim C9. -/

/-- C9 counterexample: two queued jobs of equal priority in the same group, stored
with the later timestamp first, come out of `getJobsInGroup` still in store order —
timestamp 2 before timestamp 1 — so equal-priority jobs are not ordered by ascending
timestamp. -/
theorem C9_counterexample :
    (getJobsInGroup [jobTsLate, jobTsEarly] (Job.getGroupId baseJob)).map Job.timestamp =
      [2, 1] ∧
    jobTsLate.priority = jobTsEarly.priority ∧
    ¬ ((getJobsInGroup [jobTsLate, jobTsEarly] (Job.getGroupId baseJob)).map Job.timestamp =
      [1, 2]) := by
  decide

/-- C9 (amended): `getJobsInGroup` returns the queued members of the group sorted by
priority descending only; the sort is stable, so equal-priority jobs keep their
store-scan order, which need not be ascending timestamp order. -/
theorem C9_priority_order (store : List Job) (gid : List Char) :
    List.Sorted priorityDesc (getJobsInGroup store gid) ∧
    (getJobsInGroup store gid).Perm (queuedMembers store gid) ∧
    (∀ j ∈ getJobsInGroup store gid, j.status = JobStatus.queued) := by
  refine ⟨?_, List.perm_insertionSort _ _, ?_⟩
  · haveI : IsTotal Job priorityDesc := ⟨fun a b => le_total _ _⟩
    haveI : IsTrans Job priorityDesc := ⟨fun _ _ _ h1 h2 => le_trans h2 h1⟩
    exact List.sorted_insertionSort _ _
  · intro j hj
    have hj2 : j ∈ queuedMembers store gid :=
      ((List.perm_insertionSort priorityDesc _).mem_iff).mp hj
    unfold queuedMembers at hj2
    split at hj2
    · exact (of_decide_eq_true (List.mem_filter.mp hj2).2).2.2
    · exact absurd hj2 (List.not_mem_nil j)

/-! Claim C10. -/

/-- `jsSplit` never returns the empty list of pieces. -/
theorem jsSplit_ne_nil (sep : Char) (l : List Char) : jsSplit sep l ≠ [] := by
  cases l with
  | nil => simp [jsSplit]
  | cons c rest =>
    simp only [jsSplit]
    split
    · exact List.cons_ne_nil _ _
    · split <;> exact List.cons_ne_nil _ _

/-- Splitting a separator-free string yields that single piece. -/
theorem jsSplit_no_sep (sep : Char) (a : List Char) (h : sep ∉ a) :
    jsSplit sep a = [a] := by
  induction a with
  | nil => rfl
  | cons c t ih =>
    have hc : c ≠ sep := fun hh => h (hh ▸ List.mem_cons_self _ _)
    have ht : sep ∉ t := fun hh => h (List.mem_cons_of_mem _ hh)
    simp only [jsSplit, if_neg hc, ih ht]

/-- Splitting peels off a separator-free prefix before the first separator. -/
theorem jsSplit_append (sep : Char) (a rest : List Char) (h : sep ∉ a) :
    jsSplit sep (a ++ sep :: rest) = a :: jsSplit sep rest := by
  induction a with
  | nil => simp [jsSplit]
  | cons c t ih =>
    have hc : c ≠ sep := fun hh => h (hh ▸ List.mem_cons_self _ _)
    have ht : sep ∉ t := fun hh => h (List.mem_cons_of_mem _ hh)
    simp only [List.cons_append, jsSplit, if_neg hc, List.append_eq, ih ht]

/-- None of the three target wire strings contains an underscore. -/
theorem target_no_underscore (t : Target) : '_' ∉ (Target.toStr t).data := by
  cases t <;> decide

/-- C10 (confirmed): when org_id and app_version_id are underscore-free, splitting
the derived group id on underscores recovers exactly the original triple, and the
scheduler's group-member lookup then selects the job from a store under its own
group id; while for a job whose org_id contains an underscore the parse does not
recover the original triple. -/
theorem C10_groupId_parse :
    (∀ j : Job, '_' ∉ j.org_id.data → '_' ∉ j.app_version_id.data →
      (jsSplit '_' j.getGroupId =
        [j.org_id.data, j.app_version_id.data, (Target.toStr j.target).data] ∧
      (j.status = JobStatus.queued → queuedMembers [j] j.getGroupId = [j]))) ∧
    (∃ j : Job, '_' ∈ j.org_id.data ∧
      jsSplit '_' j.getGroupId ≠
        [j.org_id.data, j.app_version_id.data, (Target.toStr j.target).data]) := by
  constructor
  · intro j h1 h2
    have hsplit : jsSplit '_' j.getGroupId =
        [j.org_id.data, j.app_version_id.data, (Target.toStr j.target).data] := by
      unfold Job.getGroupId
      rw [jsSplit_append _ _ _ h1, jsSplit_append _ _ _ h2,
        jsSplit_no_sep _ _ (target_no_underscore j.target)]
    refine ⟨hsplit, ?_⟩
    intro hq
    unfold queuedMembers
    rw [hsplit]
    simp [getJobs, statusMatches, hq]
  · exact ⟨underscoreJob, by decide, by decide⟩

/-- C10 witness: the parse statement instantiated on a concrete underscore-free job. -/
theorem C10_witness :
    jsSplit '_' baseJob.getGroupId =
      [baseJob.org_id.data, baseJob.app_version_id.data,
        (Target.toStr baseJob.target).data] ∧
    (baseJob.status = JobStatus.queued →
      queuedMembers [baseJob] baseJob.getGroupId = [baseJob]) :=
  C10_groupId_parse.1 baseJob (by decide) (by decide)
